import Mathlib

/-!
Verification of `dash::Mutex` (dash/include/dash/Mutex.h), a distributed
mutual-exclusion primitive scoped to a DASH team.

The header's member functions each issue exactly one DART runtime call and
check its status with `DASH_ASSERT_EQ`.  The DART lock service, `Team`, and
`DASH_ASSERT_EQ` live outside this header; where a claim depends on them they
are modelled from the specification (marked in their doc comments).
-/

namespace DashMutex

/-- DART status codes: `DART_OK` or a non-success code. -/
inductive dart_ret_t where
  | DART_OK : dart_ret_t
  | DART_FAIL : Nat → dart_ret_t
  deriving DecidableEq, Repr, BEq

/-- Opaque DART lock handle (`dart_lock_t`), identified by a number. -/
abbrev dart_lock_t := Nat

/-- Team identifier (`dart_team_t`, the value of `Team::dart_id()`). -/
abbrev TeamId := Nat

/-- Modelled from the spec: the process-wide default team `dash::Team::All()`,
represented by its stable identifier (`Team.h` is not part of the sources). -/
def Team.All_id : TeamId := 0

/-- A fatal assertion failure: the expected status, the actual status and the
diagnostic message, carried to the process-abort report. -/
structure FatalError where
  expected : dart_ret_t
  actual   : dart_ret_t
  msg      : String
  deriving DecidableEq, Repr, BEq

/-- Modelled from the spec: `DASH_ASSERT_EQ` (dash/Exception.h, not in the
sources) compares the two values and escalates a mismatch to a fatal error
that terminates the process; on equality it is a no-op. -/
def DASH_ASSERT_EQ (expected actual : dart_ret_t) (msg : String) :
    Except FatalError Unit :=
  if actual = expected then Except.ok () else Except.error ⟨expected, actual, msg⟩

/-- Whether an operation outcome is a fatal abort. -/
def isFatal {α : Type} : Except FatalError α → Bool
  | Except.error _ => true
  | Except.ok _ => false

/-- The state of a `dash::Mutex` object: the DART lock handle `_mutex` and the
team reference `_team`, modelled by the referenced team's identity. -/
structure MutexObj where
  _mutex : dart_lock_t
  _team  : TeamId
  deriving DecidableEq, Repr, BEq

/-- `static_cast<bool>` applied to a C++ integer: true iff the value is
non-zero. -/
def static_cast_bool (i : Int) : Bool := i != 0

/-- `dash::Mutex::Mutex(Team &)` (Mutex.h lines 47-52): calls
`dart_team_lock_init(_team.dart_id(), &_mutex)` and asserts the status is
`DART_OK`; on success the object holds the handle the runtime produced and a
reference to the team.  `ret` and `handle` are the outputs of the (external)
`dart_team_lock_init` call. -/
def Mutex.construct (team : TeamId) (ret : dart_ret_t) (handle : dart_lock_t) :
    Except FatalError MutexObj := do
  DASH_ASSERT_EQ dart_ret_t.DART_OK ret "dart_team_lock_init failed"
  pure ⟨handle, team⟩

/-- The constructor invoked with no team argument: the declaration
`explicit Mutex(Team & team = dash::Team::All())` (line 47) defaults the team
to `dash::Team::All()`. -/
def Mutex.constructDefault (ret : dart_ret_t) (handle : dart_lock_t) :
    Except FatalError MutexObj :=
  Mutex.construct Team.All_id ret handle

/-- `dash::Mutex::~Mutex()` (lines 64-67): calls
`dart_team_lock_free(_team.dart_id(), &_mutex)` and asserts `DART_OK`.
`ret` is the status that call returned. -/
def Mutex.destruct (ret : dart_ret_t) : Except FatalError Unit :=
  DASH_ASSERT_EQ dart_ret_t.DART_OK ret "dart_team_lock_free failed"

/-- `dash::Mutex::lock()` (lines 72-75): calls `dart_lock_acquire(_mutex)` and
asserts the returned status is `DART_OK`. -/
def Mutex.lock (ret : dart_ret_t) : Except FatalError Unit :=
  DASH_ASSERT_EQ dart_ret_t.DART_OK ret "dart_lock_acquire failed"

/-- `dash::Mutex::try_lock()` (lines 81-86): calls
`dart_lock_try_acquire(_mutex, &result)`, asserts the status is `DART_OK`,
and returns `static_cast<bool>(result)` where `result` is an `int32_t`. -/
def Mutex.try_lock (ret : dart_ret_t) (result : Int) :
    Except FatalError Bool := do
  DASH_ASSERT_EQ dart_ret_t.DART_OK ret "dart_lock_try_acquire failed"
  pure (static_cast_bool result)

/-- `dash::Mutex::unlock()` (lines 91-94): calls `dart_lock_release(_mutex)`
and asserts `DART_OK`; the diagnostic string is the one written in the source
at line 93. -/
def Mutex.unlock (ret : dart_ret_t) : Except FatalError Unit :=
  DASH_ASSERT_EQ dart_ret_t.DART_OK ret "dart_lock_acquire failed"

/-- `Mutex(Mutex && other) = default` (line 55): the defaulted move
constructor moves each member, which for the handle `_mutex` (an opaque
trivially-copyable value) and the reference `_team` is a plain copy; the
source object is left unchanged, in particular its `_mutex` still names the
same handle.  The result pairs the new object with the source as it remains
after the move. -/
def Mutex.moveConstruct (other : MutexObj) : MutexObj × MutexObj :=
  (⟨other._mutex, other._team⟩, other)

/-! ### Externally visible calls each member function issues

Each member body of Mutex.h performs exactly one runtime call; these lists
record them, over an effect alphabet that also names the operations on `Team`
objects (which no member ever performs). -/

/-- One externally visible action of a mutex member function. -/
inductive Effect where
  | dartTeamLockInit : TeamId → dart_lock_t → Effect
  | dartTeamLockFree : TeamId → dart_lock_t → Effect
  | dartLockAcquire : dart_lock_t → Effect
  | dartLockTryAcquire : dart_lock_t → Effect
  | dartLockRelease : dart_lock_t → Effect
  | teamConstruct : TeamId → Effect
  | teamCopy : TeamId → Effect
  | teamDestroy : TeamId → Effect
  deriving DecidableEq, Repr, BEq

/-- Whether an effect constructs, copies or destroys a `Team` object. -/
def Effect.isTeamOp : Effect → Bool
  | Effect.teamConstruct _ => true
  | Effect.teamCopy _ => true
  | Effect.teamDestroy _ => true
  | _ => false

/-- Calls issued by the constructor body (line 50). -/
def Mutex.constructEffects (team : TeamId) (handle : dart_lock_t) :
    List Effect := [Effect.dartTeamLockInit team handle]

/-- Calls issued by the destructor body (line 65): one
`dart_team_lock_free(_team.dart_id(), &_mutex)`, unconditionally. -/
def Mutex.destructEffects (m : MutexObj) : List Effect :=
  [Effect.dartTeamLockFree m._team m._mutex]

/-- Calls issued by `lock()` (line 73). -/
def Mutex.lockEffects (m : MutexObj) : List Effect :=
  [Effect.dartLockAcquire m._mutex]

/-- Calls issued by `try_lock()` (line 83). -/
def Mutex.tryLockEffects (m : MutexObj) : List Effect :=
  [Effect.dartLockTryAcquire m._mutex]

/-- Calls issued by `unlock()` (line 92). -/
def Mutex.unlockEffects (m : MutexObj) : List Effect :=
  [Effect.dartLockRelease m._mutex]

/-- Calls issued by the defaulted move constructor: none — a member-wise move
of a handle and a reference performs no runtime call and no `Team` operation. -/
def Mutex.moveConstructEffects : List Effect := []

/-! ### Per-process instance accounting

Within one process, the live `Mutex` instances are tracked by the handles
they store.  The available object-producing and object-destroying operations
of the public interface are exactly: the collective constructor, the
defaulted move constructor, and the destructor.  The copy constructor and
copy assignment are deleted (lines 54 and 57), so no copy operation appears
here; declaring the copy assignment also suppresses the implicit move
assignment, so no move assignment exists either. -/

/-- Handles stored by the live `Mutex` instances of one process. -/
abbrev LocalInstances := List dart_lock_t

/-- The object-lifecycle operations the public interface offers. -/
inductive LocalOp where
  | construct : dart_lock_t → LocalOp
  | moveConstructFrom : dart_lock_t → LocalOp
  | destruct : dart_lock_t → LocalOp
  deriving DecidableEq, Repr

/-- Effect of a lifecycle operation on the process's live instances.
`construct h` brings a new instance holding `h` to life; `moveConstructFrom h`
move-constructs a new instance from a live instance holding `h` — per line 55
the new instance holds `h` and the source instance still holds `h`;
`destruct h` ends the life of one instance holding `h`. -/
def applyOp : LocalOp → LocalInstances → LocalInstances
  | LocalOp.construct h, L => h :: L
  | LocalOp.moveConstructFrom h, L => if h ∈ L then h :: L else L
  | LocalOp.destruct h, L => L.erase h

/-! ### Spec-modelled global lock state and system transitions

Modelled from the spec: the DART lock service owns, per handle, the global
"who holds it" state; `dart_lock_acquire` blocks until it can grant exclusive
ownership, `dart_lock_try_acquire` returns immediately with an `int32_t`
result, `dart_lock_release` gives ownership up.  The service's code is not in
the sources, so its state machine is taken from the specification.  Each
process additionally has the local belief "I am in the held state", entered
when its `lock()` returns or its `try_lock()` returns true and left by
`unlock()`. -/

/-- Global system state for one lock handle: the service's holder, and each
rank's local "I hold it" belief. -/
structure SysState where
  holder : Option Nat
  held : Nat → Bool

/-- Modelled from the spec: `dart_lock_try_acquire` against the current
holder.  When the lock is free it is granted (`result = 1`); when it is busy
the result is `0`, the status is still `DART_OK`, and the state is unchanged. -/
def dart_lock_try_acquire (r : Nat) (holder : Option Nat) :
    Int × dart_ret_t × Option Nat :=
  match holder with
  | none => (1, dart_ret_t.DART_OK, some r)
  | some q => (0, dart_ret_t.DART_OK, some q)

/-- One interleaving step: a rank completes a `lock()`, a `try_lock()` or an
`unlock()` call on the shared mutex.  A blocking `lock()` completes only once
the service can grant exclusive ownership; a failing `try_lock()` changes
nothing; `unlock()` requires the spec precondition that the caller holds the
lock. -/
inductive Step : SysState → SysState → Prop where
  | lockAcquire (s : SysState) (r : Nat) (hfree : s.holder = none) :
      Step s ⟨some r, Function.update s.held r true⟩
  | tryLockSucc (s : SysState) (r : Nat) (hfree : s.holder = none) :
      Step s ⟨some r, Function.update s.held r true⟩
  | tryLockFail (s : SysState) (r q : Nat) (hbusy : s.holder = some q) :
      Step s s
  | unlock (s : SysState) (r : Nat) (hheld : s.held r = true) :
      Step s ⟨none, Function.update s.held r false⟩

/-- Initial state after the collective constructor: unlocked, nobody holds. -/
def initState : SysState := ⟨none, fun _ => false⟩

/-- States reachable from the freshly constructed mutex by interleaving
`lock`, `try_lock` and `unlock` calls. -/
inductive Reachable : SysState → Prop where
  | init : Reachable initState
  | step {s t : SysState} : Reachable s → Step s t → Reachable t

/-- The inductive invariant: a rank believes it holds the lock exactly when
the service records it as the holder. -/
def Inv (s : SysState) : Prop := ∀ r : Nat, s.held r = true ↔ s.holder = some r

theorem inv_init : Inv initState := by
  intro r
  simp [initState]

theorem inv_step {s t : SysState} (hinv : Inv s) (hst : Step s t) : Inv t := by
  cases hst with
  | lockAcquire r hfree =>
      intro q
      by_cases hq : q = r
      · subst hq; simp [Function.update_same]
      · simp only [Function.update_noteq hq]
        constructor
        · intro hheld
          exact absurd (hinv q |>.mp hheld) (by simp [hfree])
        · intro hsome
          exact absurd (Option.some.inj hsome) (fun e => hq e.symm)
  | tryLockSucc r hfree =>
      intro q
      by_cases hq : q = r
      · subst hq; simp [Function.update_same]
      · simp only [Function.update_noteq hq]
        constructor
        · intro hheld
          exact absurd (hinv q |>.mp hheld) (by simp [hfree])
        · intro hsome
          exact absurd (Option.some.inj hsome) (fun e => hq e.symm)
  | tryLockFail r q hbusy => exact hinv
  | unlock r hheld =>
      intro q
      by_cases hq : q = r
      · subst hq; simp [Function.update_same]
      · simp only [Function.update_noteq hq]
        constructor
        · intro hq2
          have hold := hinv r |>.mp hheld
          have hq3 := hinv q |>.mp hq2
          rw [hold] at hq3
          exact absurd (Option.some.inj hq3) (fun e => hq e.symm)
        · intro h; exact absurd h (by simp)

theorem inv_reachable {s : SysState} (h : Reachable s) : Inv s := by
  induction h with
  | init => exact inv_init
  | step _ hst ih => exact inv_step ih hst

/-- A concrete reachable state: rank 0 has completed `lock()`. -/
def exampleLocked : SysState := ⟨some 0, Function.update initState.held 0 true⟩

theorem exampleLocked_reachable : Reachable exampleLocked :=
  Reachable.step Reachable.init (Step.lockAcquire initState 0 rfl)

theorem exampleLocked_held : exampleLocked.held 0 = true := by
  simp [exampleLocked]

/-! ## Claims -/

/-- C1: Mutual exclusion — in every state reachable by interleaving `lock`,
`try_lock` and `unlock` calls on one handle, no two ranks simultaneously
observe themselves as holder: any two ranks in the held state are equal. -/
theorem C1_mutual_exclusion {s : SysState} (hreach : Reachable s)
    (r1 r2 : Nat) (h1 : s.held r1 = true) (h2 : s.held r2 = true) :
    r1 = r2 := by
  have hinv := inv_reachable hreach
  have e1 := (hinv r1).mp h1
  have e2 := (hinv r2).mp h2
  rw [e1] at e2
  exact Option.some.inj e2

theorem C1_witness : Reachable exampleLocked ∧ (0 : Nat) = 0 :=
  ⟨exampleLocked_reachable,
    C1_mutual_exclusion exampleLocked_reachable 0 0
      exampleLocked_held exampleLocked_held⟩

/-- C2: the claim says that after move-construction the source is empty, the
destructor of the source performs no free, and the handle is never freed
twice.  Evaluating the code at the failing input (a mutex holding handle 7 on
team 0, move-constructed into a second object, then both destroyed) shows the
defaulted move constructor leaves the handle in the source, and
`dart_team_lock_free` is issued on handle 7 twice — a double free. -/
theorem C2_move_double_free :
    (Mutex.moveConstruct ⟨7, 0⟩).2._mutex = 7 ∧
    (Mutex.destructEffects (Mutex.moveConstruct ⟨7, 0⟩).2 ++
        Mutex.destructEffects (Mutex.moveConstruct ⟨7, 0⟩).1).count
      (Effect.dartTeamLockFree 0 7) = 2 := by
  decide

/-- C3: every one of the five runtime calls (init, free, acquire,
try_acquire, release) has its status checked, and any non-success status
makes the corresponding member function end in a fatal error. -/
theorem C3_error_escalation (ret : dart_ret_t)
    (hbad : ret ≠ dart_ret_t.DART_OK) :
    (∀ team handle, isFatal (Mutex.construct team ret handle) = true) ∧
    isFatal (Mutex.destruct ret) = true ∧
    isFatal (Mutex.lock ret) = true ∧
    (∀ result, isFatal (Mutex.try_lock ret result) = true) ∧
    isFatal (Mutex.unlock ret) = true := by
  refine ⟨fun team handle => ?_, ?_, ?_, fun result => ?_, ?_⟩ <;>
    simp [Mutex.construct, Mutex.destruct, Mutex.lock, Mutex.try_lock,
      Mutex.unlock, DASH_ASSERT_EQ, isFatal, hbad, Except.bind]

theorem C3_witness :
    isFatal (Mutex.construct 0 (dart_ret_t.DART_FAIL 1) 7) = true ∧
    isFatal (Mutex.destruct (dart_ret_t.DART_FAIL 1)) = true ∧
    isFatal (Mutex.lock (dart_ret_t.DART_FAIL 1)) = true ∧
    isFatal (Mutex.try_lock (dart_ret_t.DART_FAIL 1) 0) = true ∧
    isFatal (Mutex.unlock (dart_ret_t.DART_FAIL 1)) = true := by
  have h := C3_error_escalation (dart_ret_t.DART_FAIL 1) (by decide)
  exact ⟨h.1 0 7, h.2.1, h.2.2.1, h.2.2.2.1 0, h.2.2.2.2⟩

/-- C4: when the lock is held elsewhere, `try_acquire` reports result 0 with
success status and an unchanged holder, the code turns that into the return
value `false`, and the system state is unchanged; a non-success status makes
`try_lock` fatal; and every other operation, when not fatal, yields the plain
unit success, so the `false` of `try_lock` is the sole non-fatal negative
outcome of the interface. -/
theorem C4_try_lock_semantics (s : SysState) (q : Nat)
    (hbusy : s.holder = some q) :
    (∀ r, dart_lock_try_acquire r s.holder = (0, dart_ret_t.DART_OK, s.holder)) ∧
    Mutex.try_lock dart_ret_t.DART_OK 0 = Except.ok false ∧
    Step s s ∧
    (∀ ret result, ret ≠ dart_ret_t.DART_OK →
      isFatal (Mutex.try_lock ret result) = true) ∧
    (∀ ret, isFatal (Mutex.lock ret) = false → Mutex.lock ret = Except.ok ()) ∧
    (∀ ret, isFatal (Mutex.unlock ret) = false → Mutex.unlock ret = Except.ok ()) ∧
    (∀ ret, isFatal (Mutex.destruct ret) = false → Mutex.destruct ret = Except.ok ()) := by
  refine ⟨fun r => ?_, ?_, Step.tryLockFail s 0 q hbusy, ?_, ?_, ?_, ?_⟩
  · rw [hbusy]; rfl
  · rfl
  · intro ret result hbad
    simp [Mutex.try_lock, DASH_ASSERT_EQ, isFatal, hbad, Except.bind]
  · intro ret
    cases ret <;> simp [Mutex.lock, DASH_ASSERT_EQ, isFatal]
  · intro ret
    cases ret <;> simp [Mutex.unlock, DASH_ASSERT_EQ, isFatal]
  · intro ret
    cases ret <;> simp [Mutex.destruct, DASH_ASSERT_EQ, isFatal]

theorem C4_witness :
    Reachable exampleLocked ∧
    Mutex.try_lock dart_ret_t.DART_OK 0 = Except.ok false ∧
    Step exampleLocked exampleLocked := by
  have h := C4_try_lock_semantics exampleLocked 0 rfl
  exact ⟨exampleLocked_reachable, h.2.1, h.2.2.1⟩

/-- C5: the claim says a failed release inside `unlock()` produces a
diagnostic identifying the release operation.  Evaluating the code: `unlock`
issues a `dart_lock_release` call, yet its assertion message (Mutex.h line
93) is the string "dart_lock_acquire failed" — the very message `lock()`
uses — so the diagnostic names the wrong operation. -/
theorem C5_unlock_diagnostic :
    Mutex.unlockEffects ⟨7, 0⟩ = [Effect.dartLockRelease 7] ∧
    Mutex.unlock (dart_ret_t.DART_FAIL 1) =
      Except.error
        ⟨dart_ret_t.DART_OK, dart_ret_t.DART_FAIL 1, "dart_lock_acquire failed"⟩ ∧
    Mutex.lock (dart_ret_t.DART_FAIL 1) =
      Except.error
        ⟨dart_ret_t.DART_OK, dart_ret_t.DART_FAIL 1, "dart_lock_acquire failed"⟩ := by
  refine ⟨rfl, rfl, rfl⟩

/-- C6 counterexample: the public interface does contain an operation that
produces two live local instances owning the same handle — move-construction
from a live instance holding handle 7 turns the single-ownership instance
list `[7]` into `[7, 7]`. -/
theorem C6_counterexample :
    List.Nodup [(7 : dart_lock_t)] ∧
    applyOp (LocalOp.moveConstructFrom 7) [7] = [7, 7] ∧
    ¬ List.Nodup [(7 : dart_lock_t), 7] := by
  decide

/-- C6 amended: copy construction and copy assignment are deleted, so no copy
operation exists in the lifecycle interface (`LocalOp` has no copy); ordinary
construction with a fresh handle and destruction preserve per-process single
ownership; but the defaulted move constructor leaves the source holding the
handle, so move-construction from a live instance yields two live instances
with that handle. -/
theorem C6_no_copy_single_ownership (L : LocalInstances) (hnd : L.Nodup) :
    (∀ h, h ∉ L → (applyOp (LocalOp.construct h) L).Nodup) ∧
    (∀ h, (applyOp (LocalOp.destruct h) L).Nodup) ∧
    (∀ h, h ∈ L → applyOp (LocalOp.moveConstructFrom h) L = h :: L) := by
  refine ⟨fun h hmem => ?_, fun h => ?_, fun h hmem => ?_⟩
  · exact List.nodup_cons.mpr ⟨hmem, hnd⟩
  · exact hnd.erase h
  · simp [applyOp, hmem]

theorem C6_witness :
    (applyOp (LocalOp.construct 4) [3]).Nodup ∧
    (applyOp (LocalOp.destruct 3) [3]).Nodup ∧
    applyOp (LocalOp.moveConstructFrom 3) [3] = [3, 3] := by
  have h := C6_no_copy_single_ownership [3] (by decide)
  exact ⟨h.1 4 (by decide), h.2.1 3, h.2.2 3 (by decide)⟩

/-- C7: `lock()` issues exactly one blocking `dart_lock_acquire` on the
stored handle; from an unlocked state the grant transitions the global state
to Locked(this rank) with the caller in the held state; a success status
returns normally and a non-success status is fatal. -/
theorem C7_lock_behaviour (s : SysState) (r : Nat)
    (hfree : s.holder = none) :
    (∀ m : MutexObj, Mutex.lockEffects m = [Effect.dartLockAcquire m._mutex]) ∧
    Step s ⟨some r, Function.update s.held r true⟩ ∧
    Function.update s.held r true r = true ∧
    Mutex.lock dart_ret_t.DART_OK = Except.ok () ∧
    (∀ ret, ret ≠ dart_ret_t.DART_OK → isFatal (Mutex.lock ret) = true) := by
  refine ⟨fun m => rfl, Step.lockAcquire s r hfree, ?_, rfl, ?_⟩
  · simp
  · intro ret hbad
    simp [Mutex.lock, DASH_ASSERT_EQ, isFatal, hbad]

theorem C7_witness :
    Step initState ⟨some 0, Function.update initState.held 0 true⟩ ∧
    Mutex.lock dart_ret_t.DART_OK = Except.ok () := by
  have h := C7_lock_behaviour initState 0 rfl
  exact ⟨h.2.1, h.2.2.2.1⟩

/-- C8: under the precondition that rank `r` is in the held state, `unlock()`
issues exactly one `dart_lock_release` on the stored handle, the global state
transitions to Unlocked (`holder = none`, visible to the whole team) and the
caller leaves the held state; a success status returns normally. -/
theorem C8_unlock_behaviour (s : SysState) (r : Nat)
    (hheld : s.held r = true) :
    (∀ m : MutexObj, Mutex.unlockEffects m = [Effect.dartLockRelease m._mutex]) ∧
    Step s ⟨none, Function.update s.held r false⟩ ∧
    Function.update s.held r false r = false ∧
    Mutex.unlock dart_ret_t.DART_OK = Except.ok () := by
  refine ⟨fun m => rfl, Step.unlock s r hheld, ?_, rfl⟩
  simp

theorem C8_witness :
    Step exampleLocked ⟨none, Function.update exampleLocked.held 0 false⟩ ∧
    Mutex.unlock dart_ret_t.DART_OK = Except.ok () := by
  have h := C8_unlock_behaviour exampleLocked 0 exampleLocked_held
  exact ⟨h.2.1, h.2.2.2⟩

/-- C9: for every `int32_t` result delivered by a successful
`dart_lock_try_acquire`, `try_lock` returns true exactly when the integer is
non-zero — `static_cast<bool>` counts any non-zero value as acquired. -/
theorem C9_try_lock_boolean (i : Int)
    (hlo : -(2 ^ 31) ≤ i) (hhi : i < 2 ^ 31) :
    (Mutex.try_lock dart_ret_t.DART_OK i = Except.ok true ↔ i ≠ 0) ∧
    (Mutex.try_lock dart_ret_t.DART_OK i = Except.ok false ↔ i = 0) := by
  have hred : Mutex.try_lock dart_ret_t.DART_OK i = Except.ok (i != 0) := rfl
  rw [hred]
  constructor <;> simp

theorem C9_witness :
    Mutex.try_lock dart_ret_t.DART_OK 5 = Except.ok true ∧
    Mutex.try_lock dart_ret_t.DART_OK (-3) = Except.ok true ∧
    Mutex.try_lock dart_ret_t.DART_OK 0 = Except.ok false := by
  have h5 := C9_try_lock_boolean 5 (by norm_num) (by norm_num)
  have h3 := C9_try_lock_boolean (-3) (by norm_num) (by norm_num)
  have h0 := C9_try_lock_boolean 0 (by norm_num) (by norm_num)
  exact ⟨h5.1.mpr (by norm_num), h3.1.mpr (by norm_num), h0.2.mpr rfl⟩

/-- C10: constructing with no team argument scopes the lock to the default
team `Team::All()`; the constructed object stores exactly the supplied team
identity (a non-owning reference) together with the handle; and no mutex
operation issues any construct, copy or destroy of a `Team` object. -/
theorem C10_default_team_nonowning :
    (∀ ret handle,
      Mutex.constructDefault ret handle = Mutex.construct Team.All_id ret handle) ∧
    (∀ team handle,
      Mutex.construct team dart_ret_t.DART_OK handle = Except.ok ⟨handle, team⟩) ∧
    (∀ m : MutexObj,
      ((Mutex.constructEffects m._team m._mutex ++ Mutex.destructEffects m ++
          Mutex.lockEffects m ++ Mutex.tryLockEffects m ++
          Mutex.unlockEffects m ++ Mutex.moveConstructEffects).all
        (fun e => !e.isTeamOp)) = true) := by
  refine ⟨fun ret handle => rfl, fun team handle => rfl, fun m => ?_⟩
  simp [Mutex.constructEffects, Mutex.destructEffects, Mutex.lockEffects,
    Mutex.tryLockEffects, Mutex.unlockEffects, Mutex.moveConstructEffects,
    Effect.isTeamOp]

end DashMutex
